import Mathlib

/-!
Shallow embedding of the StudyMate chat client: the `ChatInput` component
(submit handler, keypress handler, send button), the `ChatMessage` renderer,
and the `Message` / `ChatResponse` contract types, together with proofs of
the behavioural properties of the submit and render logic.
-/

namespace StudyMate

/-- Drop leading whitespace from a character list. -/
def trimLeftList (l : List Char) : List Char := l.dropWhile Char.isWhitespace

/-- Drop trailing whitespace from a character list. -/
def trimRightList (l : List Char) : List Char :=
  (l.reverse.dropWhile Char.isWhitespace).reverse

/-- Drop leading and trailing whitespace. -/
def trimList (l : List Char) : List Char := trimRightList (trimLeftList l)

/-- Embedding of JavaScript `String.prototype.trim`: removes leading and
trailing whitespace characters. -/
def jsTrim (s : String) : String := ⟨trimList s.data⟩

theorem dropWhile_head_or_nil (p : α → Bool) (l : List α) :
    l.dropWhile p = [] ∨ ∃ a t, l.dropWhile p = a :: t ∧ p a = false := by
  induction l with
  | nil => exact Or.inl rfl
  | cons a t ih =>
    by_cases h : p a
    · simpa [List.dropWhile_cons, h] using ih
    · exact Or.inr ⟨a, t, by simp [List.dropWhile_cons, h], by simpa using h⟩

theorem dropWhile_idem (p : α → Bool) (l : List α) :
    (l.dropWhile p).dropWhile p = l.dropWhile p := by
  rcases dropWhile_head_or_nil p l with h | ⟨a, t, h, hpa⟩
  · simp [h]
  · simp [h, List.dropWhile_cons, hpa]

theorem trimRightList_idem (l : List Char) :
    trimRightList (trimRightList l) = trimRightList l := by
  simp [trimRightList, List.reverse_reverse, dropWhile_idem]

theorem trimLeftList_trimList (l : List Char) :
    trimLeftList (trimList l) = trimList l := by
  rcases dropWhile_head_or_nil Char.isWhitespace l with h | ⟨a, t, h, hpa⟩
  · simp [trimList, trimLeftList, trimRightList, h]
  · simp only [trimList, trimLeftList, trimRightList, h, List.reverse_cons,
      List.dropWhile_append]
    by_cases he : (t.reverse.dropWhile Char.isWhitespace).isEmpty
    · simp [he, List.dropWhile_cons, hpa]
    · simp [he, List.reverse_append, List.dropWhile_cons, hpa]

theorem trimList_idem (l : List Char) : trimList (trimList l) = trimList l := by
  have h1 : trimList (trimList l) = trimRightList (trimLeftList (trimList l)) := rfl
  rw [h1, trimLeftList_trimList]
  show trimRightList (trimRightList (trimLeftList l)) = _
  rw [trimRightList_idem]
  rfl

theorem jsTrim_idem (s : String) : jsTrim (jsTrim s) = jsTrim s := by
  show String.mk (trimList (trimList s.data)) = String.mk (trimList s.data)
  exact congrArg String.mk (trimList_idem s.data)

/-- Result of one submit attempt on the `ChatInput` component: the string
passed to the `onSendMessage` callback (if any) and the new value of the
`input` state. -/
structure SendResult where
  emitted : Option String
  input : String
deriving DecidableEq, Repr

/-- Embedding of `handleSend` from `ChatInput`:
`if (input.trim() && !disabled) { onSendMessage(input.trim()); setInput(''); }`.
The JS truthiness test on `input.trim()` is non-emptiness of the trimmed
string. -/
def handleSend (input : String) (disabled : Bool) : SendResult :=
  if (jsTrim input != "") && !disabled then
    { emitted := some (jsTrim input), input := "" }
  else
    { emitted := none, input := input }

/-- Embedding of a DOM keyboard event, with the fields `ChatInput` could
observe. -/
structure KeyboardEvent where
  key : String
  shiftKey : Bool
  ctrlKey : Bool
  altKey : Bool
  metaKey : Bool
deriving DecidableEq, Repr

/-- Embedding of `handleKeyPress` from `ChatInput`: on `Enter` without shift
it prevents the default action and runs `handleSend`; otherwise the event is
not handled (`none`). -/
def handleKeyPress (e : KeyboardEvent) (input : String) (disabled : Bool) :
    Option SendResult :=
  if e.key == "Enter" && !e.shiftKey then some (handleSend input disabled)
  else none

/-- The send button's `disabled` attribute: `disabled || !input.trim()`. -/
def sendButtonDisabled (input : String) (disabled : Bool) : Bool :=
  disabled || (jsTrim input == "")

/-- Effect of a click on the send button: a disabled button fires no
`onClick`; an enabled one runs `handleSend`. -/
def clickSend (input : String) (disabled : Bool) : SendResult :=
  if sendButtonDisabled input disabled then { emitted := none, input := input }
  else handleSend input disabled

/-- The `role` union type of a `Message`: `'user' | 'assistant'`. -/
inductive Role where
  | user
  | assistant
deriving DecidableEq, Repr

/-- The string a `Role` denotes in the source (used in the CSS class). -/
def Role.str : Role → String
  | .user => "user"
  | .assistant => "assistant"

/-- Embedding of the `Message` interface: `id`, `role`, `content`,
`timestamp` (the `Date` is abstracted as a natural number of milliseconds). -/
structure Message where
  id : String
  role : Role
  content : String
  timestamp : Nat
deriving DecidableEq, Repr

/-- The observable output of the `ChatMessage` renderer: the outer CSS class,
the icon glyph, and the rendered text. -/
structure RenderedMessage where
  className : String
  icon : String
  text : String
deriving DecidableEq, Repr

/-- Embedding of the `ChatMessage` component: a pure function of the message.
Class is `` `message ${message.role}` ``, icon is
`message.role === 'user' ? '👤' : '🤖'`, and the text node is
`message.content`. -/
def ChatMessage (m : Message) : RenderedMessage :=
  { className := "message " ++ m.role.str
    icon := if m.role = Role.user then "👤" else "🤖"
    text := m.content }

/-- The type of a TypeScript record field, as far as the contract types here
need. -/
inductive FieldType where
  | string
  | array (elem : FieldType)
  | optional (ty : FieldType)
deriving DecidableEq, Repr

/-- The fields of the `ChatResponse` interface exactly as declared in the
source: `answer: string; sources?: string[]`. -/
def ChatResponseFields : List (String × FieldType) :=
  [("answer", FieldType.string),
   ("sources", FieldType.optional (FieldType.array FieldType.string))]

/-- The fields the spec sentence behind claim C5 attributes to the
client-facing contract type: answer, status, and optional sources. Stated
from the spec words, for comparison with `ChatResponseFields`. -/
def claimedChatResponseFields : List (String × FieldType) :=
  [("answer", FieldType.string),
   ("status", FieldType.string),
   ("sources", FieldType.optional (FieldType.array FieldType.string))]

/-- Embedding of the `ChatResponse` interface as a value type. -/
structure ChatResponse where
  answer : String
  sources : Option (List String)
deriving DecidableEq, Repr

/-- Modelled from the spec: the app component that wires `ChatInput` to the
backend is not among the provided sources. Per the spec, a successful
question appends one user-authored message and then exactly one
assistant-authored message whose content is the response's answer, in that
order. -/
def askQuestionSuccess (conv : List Message) (question : String)
    (resp : ChatResponse) (uid aid : String) (t₁ t₂ : Nat) : List Message :=
  conv ++ [{ id := uid, role := Role.user, content := question, timestamp := t₁ },
           { id := aid, role := Role.assistant, content := resp.answer, timestamp := t₂ }]

/-- C1: for every input string whose trim is empty the submit action —
whether `handleSend` directly, a button click, or a handled keypress —
emits nothing to the caller, so no message can be appended as a result. -/
theorem empty_submit_emits_nothing (s : String) (d : Bool) (e : KeyboardEvent)
    (h : jsTrim s = "") :
    (handleSend s d).emitted = none ∧ (clickSend s d).emitted = none ∧
    ∀ r, handleKeyPress e s d = some r → r.emitted = none := by
  have hs : (jsTrim s != "") = false := by simp [h]
  have h1 : (handleSend s d).emitted = none := by simp [handleSend, hs]
  refine ⟨h1, ?_, ?_⟩
  · simp [clickSend, sendButtonDisabled, h, handleSend, hs]
  · intro r hr
    unfold handleKeyPress at hr
    split at hr
    · simp only [Option.some.injEq] at hr
      rw [← hr]
      exact h1
    · exact Option.noConfusion hr

/-- Witness for C1 at the whitespace-only input `"   "`. -/
theorem empty_submit_emits_nothing_witness :
    (handleSend "   " false).emitted = none ∧
    (clickSend "   " false).emitted = none ∧
    ({ emitted := none, input := "   " } : SendResult).emitted = none := by
  have h := empty_submit_emits_nothing "   " false
    ⟨"Enter", false, false, false, false⟩ (by decide)
  exact ⟨h.1, h.2.1, h.2.2 { emitted := none, input := "   " } (by decide)⟩

/-- C2: while a request is in flight (`disabled = true`), every submit path —
`handleSend`, button click, keypress — emits nothing and leaves the input
state unchanged, so `onSendMessage` is never called. -/
theorem disabled_submit_rejected (s : String) (e : KeyboardEvent) :
    handleSend s true = { emitted := none, input := s } ∧
    clickSend s true = { emitted := none, input := s } ∧
    ∀ r, handleKeyPress e s true = some r → r = { emitted := none, input := s } := by
  have h1 : handleSend s true = { emitted := none, input := s } := by
    simp [handleSend]
  refine ⟨h1, ?_, ?_⟩
  · simp [clickSend, sendButtonDisabled]
  · intro r hr
    unfold handleKeyPress at hr
    split at hr
    · simp only [Option.some.injEq] at hr
      rw [← hr, h1]
    · exact Option.noConfusion hr

/-- Witness for C2 at the input `"hi"` and a plain Enter keypress. -/
theorem disabled_submit_rejected_witness :
    handleSend "hi" true = { emitted := none, input := "hi" } ∧
    clickSend "hi" true = { emitted := none, input := "hi" } ∧
    ({ emitted := none, input := "hi" } : SendResult) =
      { emitted := none, input := "hi" } := by
  have h := disabled_submit_rejected "hi" ⟨"Enter", false, false, false, false⟩
  exact ⟨h.1, h.2.1, h.2.2 { emitted := none, input := "hi" } (by decide)⟩

/-- C3: for every pending-input string with non-empty trim, when no request
is in flight, `handleSend` emits exactly the trimmed string and clears the
pending input. -/
theorem nonempty_submit_emits_trim (s : String) (h : jsTrim s ≠ "") :
    handleSend s false = { emitted := some (jsTrim s), input := "" } := by
  simp [handleSend, h]

/-- Witness for C3 at the input `" hi "`. -/
theorem nonempty_submit_emits_trim_witness :
    handleSend " hi " false = { emitted := some "hi", input := "" } := by
  rw [nonempty_submit_emits_trim " hi " (by decide)]
  decide

/-- C4 counterexample: with Enter pressed while ctrl is held (and shift is
not), the keypress handler still attempts a submit, although a modifier key
is pressed — refuting the claimed equivalence at this concrete event. -/
theorem enter_with_ctrl_attempts_submit :
    (handleKeyPress (KeyboardEvent.mk "Enter" false true false false)
        "hi" false).isSome = true ∧
    ¬ ((KeyboardEvent.mk "Enter" false true false false).key = "Enter" ∧
       (KeyboardEvent.mk "Enter" false true false false).shiftKey = false ∧
       (KeyboardEvent.mk "Enter" false true false false).ctrlKey = false ∧
       (KeyboardEvent.mk "Enter" false true false false).altKey = false ∧
       (KeyboardEvent.mk "Enter" false true false false).metaKey = false) := by
  decide

/-- C4 (amended): for every keyboard event, a submit is attempted if and
only if the key is Enter and shift is not held; the ctrl, alt and meta
modifiers are not consulted. -/
theorem keypress_attempts_submit_iff (e : KeyboardEvent) (s : String) (d : Bool) :
    (handleKeyPress e s d).isSome = true ↔
      (e.key = "Enter" ∧ e.shiftKey = false) := by
  constructor
  · intro h
    unfold handleKeyPress at h
    split at h
    · rename_i hc
      rw [Bool.and_eq_true] at hc
      exact ⟨by simpa using hc.1, by simpa using hc.2⟩
    · simp at h
  · intro h
    simp [handleKeyPress, h.1, h.2]

/-- C5 counterexample: the `ChatResponse` interface declared in the source
has no `status` field, while the claim's field list does; the two field
lists differ. -/
theorem chatResponse_no_status_field :
    "status" ∉ ChatResponseFields.map Prod.fst ∧
    "status" ∈ claimedChatResponseFields.map Prod.fst ∧
    ChatResponseFields ≠ claimedChatResponseFields := by
  decide

/-- C5 (amended): the client-facing contract type consists of exactly an
`answer` of type string and an optional `sources` field of type string
array, and has no `status` field. -/
theorem chatResponseFields_shape :
    ChatResponseFields.lookup "answer" = some FieldType.string ∧
    ChatResponseFields.lookup "sources" =
      some (FieldType.optional (FieldType.array FieldType.string)) ∧
    ChatResponseFields.lookup "status" = none ∧
    ChatResponseFields.length = 2 := by
  decide

/-- C6: the renderer is a pure projection of the message; a user message
renders with the user icon and the `message user` class and an assistant
message with the assistant icon and the `message assistant` class, the text
being the message content in both cases. -/
theorem chatMessage_rendering (m : Message) :
    (m.role = Role.user →
      ChatMessage m =
        { className := "message user", icon := "👤", text := m.content }) ∧
    (m.role = Role.assistant →
      ChatMessage m =
        { className := "message assistant", icon := "🤖", text := m.content }) := by
  constructor <;> intro h <;> simp [ChatMessage, h, Role.str]

/-- Witness for C6 on one concrete user message and one concrete assistant
message. -/
theorem chatMessage_rendering_witness :
    ChatMessage { id := "1", role := Role.user, content := "hi", timestamp := 0 } =
      { className := "message user", icon := "👤", text := "hi" } ∧
    ChatMessage { id := "2", role := Role.assistant, content := "ok", timestamp := 1 } =
      { className := "message assistant", icon := "🤖", text := "ok" } :=
  ⟨(chatMessage_rendering _).1 rfl, (chatMessage_rendering _).2 rfl⟩

/-- C7: a successful question round-trip grows the conversation by exactly
two messages: a user message with the question followed by an assistant
message with the response's answer, appended in that order. -/
theorem successful_question_appends_two (conv : List Message) (q : String)
    (resp : ChatResponse) (uid aid : String) (t₁ t₂ : Nat) :
    (askQuestionSuccess conv q resp uid aid t₁ t₂).length = conv.length + 2 ∧
    ∃ u a, askQuestionSuccess conv q resp uid aid t₁ t₂ = conv ++ [u, a] ∧
      u.role = Role.user ∧ u.content = q ∧
      a.role = Role.assistant ∧ a.content = resp.answer := by
  refine ⟨by simp [askQuestionSuccess], ?_⟩
  exact ⟨_, _, rfl, rfl, rfl, rfl, rfl⟩

/-- C8: a rejected submit (trimmed input empty, or component disabled) is a
no-op: nothing is emitted and the pending input is left unchanged, on both
the direct and the button path. -/
theorem rejected_submit_is_noop (s : String) (d : Bool)
    (h : jsTrim s = "" ∨ d = true) :
    handleSend s d = { emitted := none, input := s } ∧
    clickSend s d = { emitted := none, input := s } := by
  have hc : ((jsTrim s != "") && !d) = false := by
    rcases h with h | h <;> simp [h]
  have h1 : handleSend s d = { emitted := none, input := s } := by
    simp [handleSend, hc]
  refine ⟨h1, ?_⟩
  unfold clickSend sendButtonDisabled
  rcases h with h | h
  · simp [h]
  · simp [h]

/-- Witness for C8 at the whitespace-only input `" "`. -/
theorem rejected_submit_is_noop_witness :
    handleSend " " false = { emitted := none, input := " " } ∧
    clickSend " " false = { emitted := none, input := " " } :=
  rejected_submit_is_noop " " false (Or.inl (by decide))

/-- C9: every string any submit path ever emits to the caller is non-empty
and a fixed point of trim. -/
theorem emitted_is_trimmed_nonempty (s m : String) (d : Bool) (e : KeyboardEvent) :
    ((handleSend s d).emitted = some m → m ≠ "" ∧ jsTrim m = m) ∧
    ((clickSend s d).emitted = some m → m ≠ "" ∧ jsTrim m = m) ∧
    (∀ r, handleKeyPress e s d = some r → r.emitted = some m →
      m ≠ "" ∧ jsTrim m = m) := by
  have key : ∀ s' d', (handleSend s' d').emitted = some m →
      m ≠ "" ∧ jsTrim m = m := by
    intro s' d' h
    unfold handleSend at h
    split at h
    · rename_i hc
      rw [Bool.and_eq_true] at hc
      simp only [Option.some.injEq] at h
      subst h
      exact ⟨by simpa using hc.1, jsTrim_idem s'⟩
    · exact Option.noConfusion h
  refine ⟨key s d, ?_, ?_⟩
  · intro h
    unfold clickSend at h
    split at h
    · exact Option.noConfusion h
    · exact key s d h
  · intro r hr he
    unfold handleKeyPress at hr
    split at hr
    · simp only [Option.some.injEq] at hr
      rw [← hr] at he
      exact key s d he
    · exact Option.noConfusion hr

/-- Witness for C9: the component emits `"hi"` from the input `" hi "`, and
`"hi"` is non-empty and trim-fixed. -/
theorem emitted_is_trimmed_nonempty_witness :
    ("hi" : String) ≠ "" ∧ jsTrim "hi" = "hi" :=
  (emitted_is_trimmed_nonempty " hi " "hi" false
    ⟨"Enter", false, false, false, false⟩).1 (by decide)

/-- C10: the rendered output depends only on the message's role and content:
two messages agreeing on those render identically, whatever their id and
timestamp. -/
theorem render_depends_only_on_role_and_content (m₁ m₂ : Message)
    (hr : m₁.role = m₂.role) (hc : m₁.content = m₂.content) :
    ChatMessage m₁ = ChatMessage m₂ := by
  simp [ChatMessage, hr, hc]

/-- Witness for C10 on two messages differing in id and timestamp only. -/
theorem render_depends_only_on_role_and_content_witness :
    ChatMessage { id := "a", role := Role.user, content := "x", timestamp := 0 } =
      ChatMessage { id := "b", role := Role.user, content := "x", timestamp := 99 } :=
  render_depends_only_on_role_and_content _ _ rfl rfl

end StudyMate
